import Mathlib

/-!
Verification development for the event-to-graph reconciliation engine of the
AgenticModelling repository.

The definitions below are a shallow embedding of the frontend graph state
store (src/frontend/store/agentStore.ts), the WebSocket message handler
(src/frontend/hooks/useAgentWebSocket.ts) and the data/event types
(src/frontend/types/agent.ts, the unnamed events type file).

Modelling conventions:
- JavaScript `Map` objects are association lists in insertion order;
  `Map.set` replaces the value of an existing key in place, otherwise appends.
- JavaScript numbers that hold integral values (columns, rows, pixel
  coordinates, counters, durations) are `Int`.
- `new Date().toISOString()` is an explicit `ts : String` argument.
- `null` and `undefined` are both `Option.none` (the store never
  distinguishes them).
- JS truthiness tests on nullable strings (`data.result_url ? ... : ...`)
  are modelled by `truthy?`, which maps the empty string to `none`.
-/

namespace AgentStore

/-- Status values shared by agents, tool calls and node payloads
(src/frontend/types/agent.ts, `AgentStatus`). -/
inductive AgentStatus where
  | pending
  | running
  | complete
  | error
deriving DecidableEq, Repr

/-- Session status (src/frontend/types/agent.ts, `SessionStatus`). -/
inductive SessionStatus where
  | idle
  | connecting
  | running
  | complete
  | error
deriving DecidableEq, Repr

/-- Deliverable classification (src/frontend/types/agent.ts,
`DeliverableType`); `threeDModel` renders the source's `3d_model`. -/
inductive DeliverableType where
  | image
  | threeDModel
  | video
  | other
deriving DecidableEq, Repr

/-- An agent record (src/frontend/types/agent.ts, `Agent`). -/
structure Agent where
  id : String
  type_ : String
  description : String
  status : AgentStatus
  parentId : Option String
  messages : List String
  timestamp : String
deriving DecidableEq, Repr

/-- A tool call record (src/frontend/types/agent.ts, `ToolCall`).
The structured input summary (`Record<string, unknown>`) is opaque to the
store; it is modelled as a list of string key-value pairs. -/
structure ToolCall where
  id : String
  agentId : String
  toolName : String
  status : AgentStatus
  input : List (String × String)
  inputUrls : List String
  output : Option String
  outputUrl : Option String
  error : Option String
  timestamp : String
deriving DecidableEq, Repr

/-- A deliverable (src/frontend/types/agent.ts, `Deliverable`). -/
structure Deliverable where
  type_ : DeliverableType
  output_id : String
  url : String
  label : String
deriving DecidableEq, Repr

/-- Session summary (src/frontend/types/agent.ts, `SessionSummary`). -/
structure SessionSummary where
  deliverables : Option (List (String × String)) := none
  session_dir : Option String := none
  tool_calls : Option Int := none
  duration_ms : Option Int := none
deriving DecidableEq, Repr

/-- Payload of a SUBAGENT_SPAWNED event (unnamed events type file,
`SubagentSpawnedData`). -/
structure SubagentSpawnedData where
  agent_id : String
  agent_type : String
  description : String
  parent_id : Option String
deriving DecidableEq, Repr

/-- Payload of a TOOL_CALL_START event (unnamed events type file,
`ToolCallStartData`). -/
structure ToolCallStartData where
  agent_id : String
  tool_name : String
  tool_input_summary : List (String × String)
  input_urls : List String
  tool_use_id : String
deriving DecidableEq, Repr

/-- Payload of a TOOL_CALL_COMPLETE event (unnamed events type file,
`ToolCallCompleteData`). -/
structure ToolCallCompleteData where
  agent_id : String
  tool_name : String
  tool_use_id : String
  success : Bool
  result_url : Option String
  result : Option String
  error : Option String
deriving DecidableEq, Repr

/-- Payload of an AGENT_MESSAGE event (unnamed events type file,
`AgentMessageData`). -/
structure AgentMessageData where
  agent_id : String
  message : String
deriving DecidableEq, Repr

/-- Payload of an AGENT_COMPLETE event (unnamed events type file,
`AgentCompleteData`). -/
structure AgentCompleteData where
  agent_id : String
  summary : List (String × String)
deriving DecidableEq, Repr

/-- Payload of a SESSION_COMPLETE event (unnamed events type file,
`SessionCompleteData`). -/
structure SessionCompleteData where
  final_url : Option String
  duration_ms : Int
  summary : SessionSummary
deriving DecidableEq, Repr

/-- Payload of a SESSION_ERROR event (unnamed events type file,
`SessionErrorData`). -/
structure SessionErrorData where
  error : String
deriving DecidableEq, Repr

/-- Payload of a SESSION_STARTED event (unnamed events type file,
`SessionStartedData`). -/
structure SessionStartedData where
  session_id : String
  request_preview : String
deriving DecidableEq, Repr

/-- A 2D screen position (the `position` field of a React Flow node). -/
structure Pos where
  x : Int
  y : Int
deriving DecidableEq, Repr

/-- The `data` payload of a React Flow node as built by the store.  The
source builds plain JS objects whose field sets differ between agent nodes
and tool nodes; this flat record with optional fields mirrors those objects
(absent field = `none`).  `status` is present in every literal the store
builds, so it is not optional. -/
structure NodeData where
  label : Option String := none
  agentType : Option String := none
  description : Option String := none
  status : AgentStatus
  toolName : Option String := none
  input : Option (List (String × String)) := none
  inputUrls : Option (List String) := none
  output : Option String := none
  outputUrl : Option String := none
  outputId : Option String := none
  error : Option String := none
deriving DecidableEq, Repr

/-- A React Flow node as built by the store. -/
structure Node where
  id : String
  type_ : String
  position : Pos
  data : NodeData
deriving DecidableEq, Repr

/-- A React Flow edge as built by the store.  `animated` is `false` when the
source omits the field (dependency edges), matching JS falsiness of
`undefined`.  `stroke`, `strokeWidth` and `dashed` record the style literal;
`label` records the optional edge label. -/
structure Edge where
  id : String
  source : String
  target : String
  animated : Bool
  stroke : String
  strokeWidth : Int
  dashed : Bool
  label : Option String
deriving DecidableEq, Repr

/-- Lookup in a JS-Map-as-association-list: value of the first entry with
the given key. -/
def getKey? {β : Type} : List (String × β) → String → Option β
  | [], _ => none
  | (k, v) :: rest, key => if k = key then some v else getKey? rest key

/-- `Map.set` on a JS-Map-as-association-list: replace the value of an
existing key in place, otherwise append the new entry. -/
def setKey {β : Type} : List (String × β) → String → β → List (String × β)
  | [], key, v => [(key, v)]
  | (k, w) :: rest, key, v =>
      if k = key then (key, v) :: rest else (k, w) :: setKey rest key v

/-- Same as `getKey?` for the column-count map, whose keys are numbers. -/
def getIntKey? {β : Type} : List (Int × β) → Int → Option β
  | [], _ => none
  | (k, v) :: rest, key => if k = key then some v else getIntKey? rest key

/-- Same as `setKey` for the column-count map, whose keys are numbers. -/
def setIntKey {β : Type} : List (Int × β) → Int → β → List (Int × β)
  | [], key, v => [(key, v)]
  | (k, w) :: rest, key, v =>
      if k = key then (key, v) :: rest else (k, w) :: setIntKey rest key v

/-- JS truthiness on a nullable string: `null`, `undefined` and the empty
string are falsy. -/
def truthy? : Option String → Option String
  | none => none
  | some s => if s = "" then none else some s

/-- Modelled from the spec: `getAgentColumn` lives in `src/lib/utils`, which
is not among the provided source files.  Per spec section 4.4 it is a fixed
lookup from agent type to a pipeline-stage column index, with unrecognized
types falling into one default column.  The concrete table below follows the
pipeline order named in the repository README (Planner, Image Generator,
Model Extractor, File Converter; Researcher, Video Prompter, Video
Generator); no claim depends on the exact table. -/
def getAgentColumn (agentType : String) : Int :=
  if agentType = "orchestrator" then 0
  else if agentType = "planner" then 1
  else if agentType = "image-generator" then 2
  else if agentType = "researcher" then 2
  else if agentType = "model-extractor" then 3
  else if agentType = "video-prompter" then 3
  else if agentType = "file-converter" then 4
  else if agentType = "video-generator" then 4
  else 2

/-- Modelled from the spec: URL classification by extension/content hints
into image, video, 3d_model or other (spec section 4.5); the source
function lives in `src/lib/utils`, which is not among the provided files. -/
def classifyUrl (url : String) : DeliverableType :=
  if url.endsWith ".png" || url.endsWith ".jpg" || url.endsWith ".jpeg"
      || url.endsWith ".webp" then .image
  else if url.endsWith ".mp4" || url.endsWith ".mov" || url.endsWith ".webm"
    then .video
  else if url.endsWith ".glb" || url.endsWith ".3dm" || url.endsWith ".obj"
      || url.endsWith ".stl" then .threeDModel
  else .other

/-- Modelled from the spec: `generateOutputId` lives in `src/lib/utils`,
which is not among the provided files.  Per spec section 4.5 it assigns a
stable human-facing output id; the per-session counter it keeps (reset by
`resetOutputCounters`) is module state outside the store and is not
modelled.  No claim observes the produced value. -/
def generateOutputId (toolName url : String) : String :=
  (match classifyUrl url with
   | .image => "IMAGE"
   | .video => "VIDEO"
   | .threeDModel => "MODEL"
   | .other => "OUTPUT") ++ "-" ++ toolName

/-- Modelled from the spec: `extractDeliverables` lives in `src/lib/utils`,
which is not among the provided files.  Per spec section 4.5 it maps the
summary's deliverables record (absent collections default to empty) to an
ordered deliverable list, classifying each URL; no claim observes the
produced list beyond the store carrying it. -/
def extractDeliverables (summary : SessionSummary) : List Deliverable :=
  (summary.deliverables.getD []).map fun p =>
    { type_ := classifyUrl p.2, output_id := p.1, url := p.2, label := p.1 }

/-- The whole store state (the fields of `AgentState` in
src/frontend/store/agentStore.ts, without the action closures). -/
structure AgentState where
  sessionId : Option String
  sessionStatus : SessionStatus
  sessionError : Option String
  agents : List (String × Agent)
  toolCalls : List (String × ToolCall)
  nodes : List Node
  edges : List Edge
  urlToNodeId : List (String × String)
  columnCounts : List (Int × Int)
  deliverables : List Deliverable
  finalSummary : Option SessionSummary
  selectedNodeId : Option String
deriving DecidableEq, Repr

/-- Layout constant `COLUMN_X_OFFSET` (agentStore.ts line 53). -/
def COLUMN_X_OFFSET : Int := 350

/-- Layout constant `ROW_Y_OFFSET` (agentStore.ts line 54). -/
def ROW_Y_OFFSET : Int := 180

/-- Layout constant `START_X` (agentStore.ts line 55). -/
def START_X : Int := 50

/-- Layout constant `START_Y` (agentStore.ts line 56). -/
def START_Y : Int := 50

/-- `calculateNodePosition` (agentStore.ts lines 58-63). -/
def calculateNodePosition (column row : Int) : Pos :=
  { x := START_X + column * COLUMN_X_OFFSET
    y := START_Y + row * ROW_Y_OFFSET }

/-- The initial store state (agentStore.ts lines 66-78), also produced by
`reset`. -/
def initialState : AgentState :=
  { sessionId := none
    sessionStatus := .idle
    sessionError := none
    agents := []
    toolCalls := []
    nodes := []
    edges := []
    urlToNodeId := []
    columnCounts := []
    deliverables := []
    finalSummary := none
    selectedNodeId := none }

/-- The orchestrator root node created by `startSession`
(agentStore.ts lines 84-94). -/
def orchestratorNode : Node :=
  { id := "agent-orchestrator"
    type_ := "agent"
    position := calculateNodePosition 0 0
    data :=
      { label := some "orchestrator"
        agentType := some "orchestrator"
        description := some "Main orchestrator coordinating all agents"
        status := .running } }

/-- `startSession` (agentStore.ts lines 80-113).  The call to
`resetOutputCounters` touches only the output-id counter module state,
which is outside the store (see `generateOutputId`). -/
def startSession (_s : AgentState) (sessionId : String) : AgentState :=
  { sessionId := some sessionId
    sessionStatus := .running
    sessionError := none
    agents := []
    toolCalls := []
    nodes := [orchestratorNode]
    edges := []
    urlToNodeId := []
    columnCounts := [(0, 1)]
    deliverables := []
    finalSummary := none
    selectedNodeId := none }

/-- `addAgent` (agentStore.ts lines 115-167).  `ts` stands for
`new Date().toISOString()`. -/
def addAgent (s : AgentState) (data : SubagentSpawnedData) (ts : String) :
    AgentState :=
  let column := getAgentColumn data.agent_type
  let currentCount := (getIntKey? s.columnCounts column).getD 0
  let position := calculateNodePosition column currentCount
  let agent : Agent :=
    { id := data.agent_id
      type_ := data.agent_type
      description := data.description
      status := .running
      parentId := data.parent_id
      messages := []
      timestamp := ts }
  let node : Node :=
    { id := "agent-" ++ data.agent_id
      type_ := "agent"
      position := position
      data :=
        { label := some data.agent_id
          agentType := some data.agent_type
          description := some data.description
          status := .running } }
  let parentNodeId :=
    match truthy? data.parent_id with
    | some p => "agent-" ++ p
    | none => "agent-orchestrator"
  let spawnEdge : Edge :=
    { id := "edge-" ++ parentNodeId ++ "-agent-" ++ data.agent_id
      source := parentNodeId
      target := "agent-" ++ data.agent_id
      animated := true
      stroke := "#525252"
      strokeWidth := 2
      dashed := false
      label := none }
  { s with
      agents := setKey s.agents data.agent_id agent
      nodes := s.nodes ++ [node]
      edges := s.edges ++ [spawnEdge]
      columnCounts := setIntKey s.columnCounts column (currentCount + 1) }

/-- `startToolCall` (agentStore.ts lines 169-254).  The tool column is
`agentColumn + 0.5`, so the x coordinate gains an extra
`COLUMN_X_OFFSET / 2 = 175`. -/
def startToolCall (s : AgentState) (data : ToolCallStartData) (ts : String) :
    AgentState :=
  let nodeId := "tool-" ++ data.tool_use_id
  let agentColumn : Int :=
    match getKey? s.agents data.agent_id with
    | some a => getAgentColumn a.type_
    | none => 2
  let existingToolsForAgent : Int :=
    ((s.toolCalls.filter fun p => p.2.agentId = data.agent_id).length : Int)
  let baseY : Int :=
    match s.nodes.find? fun n => n.id = "agent-" ++ data.agent_id with
    | some n => n.position.y
    | none => START_Y
  let position : Pos :=
    { x := START_X + agentColumn * COLUMN_X_OFFSET + 175
      y := baseY + existingToolsForAgent * 100 }
  let toolCall : ToolCall :=
    { id := data.tool_use_id
      agentId := data.agent_id
      toolName := data.tool_name
      status := .running
      input := data.tool_input_summary
      inputUrls := data.input_urls
      output := none
      outputUrl := none
      error := none
      timestamp := ts }
  let node : Node :=
    { id := nodeId
      type_ := "tool"
      position := position
      data :=
        { toolName := some data.tool_name
          status := .running
          input := some data.tool_input_summary
          inputUrls := some data.input_urls
          output := none
          outputUrl := none } }
  let agentEdge : Edge :=
    { id := "edge-agent-" ++ data.agent_id ++ "-tool-" ++ data.tool_use_id
      source := "agent-" ++ data.agent_id
      target := nodeId
      animated := true
      stroke := "#FF4400"
      strokeWidth := 2
      dashed := false
      label := none }
  let depEdges : List Edge :=
    data.input_urls.filterMap fun url =>
      (getKey? s.urlToNodeId url).map fun sourceNodeId =>
        { id := "edge-dep-" ++ sourceNodeId ++ "-" ++ nodeId
          source := sourceNodeId
          target := nodeId
          animated := false
          stroke := "#22c55e"
          strokeWidth := 2
          dashed := true
          label := some "data" }
  { s with
      toolCalls := setKey s.toolCalls data.tool_use_id toolCall
      nodes := s.nodes ++ [node]
      edges := s.edges ++ [agentEdge] ++ depEdges }

/-- `completeToolCall` (agentStore.ts lines 256-309). -/
def completeToolCall (s : AgentState) (data : ToolCallCompleteData) :
    AgentState :=
  let nodeId := "tool-" ++ data.tool_use_id
  let status : AgentStatus := if data.success then .complete else .error
  let newToolCalls :=
    match getKey? s.toolCalls data.tool_use_id with
    | some toolCall =>
        setKey s.toolCalls data.tool_use_id
          { toolCall with
              status := status
              output := data.result
              outputUrl := data.result_url
              error := data.error }
    | none => s.toolCalls
  let nodes := s.nodes.map fun node =>
    if node.id = nodeId then
      let outputId :=
        (truthy? data.result_url).map fun url =>
          generateOutputId data.tool_name url
      { node with
          data :=
            { node.data with
                status := status
                output := data.result
                outputUrl := data.result_url
                outputId := outputId
                error := data.error } }
    else node
  let edges := s.edges.map fun edge =>
    if edge.target = nodeId && edge.animated then
      { edge with animated := false }
    else edge
  let urlToNodeId :=
    match truthy? data.result_url with
    | some url => setKey s.urlToNodeId url nodeId
    | none => s.urlToNodeId
  { s with
      toolCalls := newToolCalls
      nodes := nodes
      edges := edges
      urlToNodeId := urlToNodeId }

/-- `addAgentMessage` (agentStore.ts lines 311-323). -/
def addAgentMessage (s : AgentState) (data : AgentMessageData) : AgentState :=
  match getKey? s.agents data.agent_id with
  | some agent =>
      { s with
          agents :=
            setKey s.agents data.agent_id
              { agent with messages := agent.messages ++ [data.message] } }
  | none => s

/-- `completeAgent` (agentStore.ts lines 325-355). -/
def completeAgent (s : AgentState) (agentId : String) : AgentState :=
  let agents :=
    match getKey? s.agents agentId with
    | some agent => setKey s.agents agentId { agent with status := .complete }
    | none => s.agents
  let nodes := s.nodes.map fun node =>
    if node.id = "agent-" ++ agentId then
      { node with data := { node.data with status := .complete } }
    else node
  let edges := s.edges.map fun edge =>
    if edge.target = "agent-" ++ agentId && edge.animated then
      { edge with animated := false }
    else edge
  { s with agents := agents, nodes := nodes, edges := edges }

/-- `completeSession` (agentStore.ts lines 357-368). -/
def completeSession (s : AgentState) (data : SessionCompleteData) :
    AgentState :=
  { s with
      sessionStatus := .complete
      deliverables := extractDeliverables data.summary
      finalSummary := some { data.summary with duration_ms := some data.duration_ms } }

/-- `setSessionError` (agentStore.ts lines 370-375). -/
def setSessionError (s : AgentState) (error : String) : AgentState :=
  { s with sessionStatus := .error, sessionError := some error }

/-- `setSelectedNode` (agentStore.ts lines 377-379). -/
def setSelectedNode (s : AgentState) (nodeId : Option String) : AgentState :=
  { s with selectedNodeId := nodeId }

/-- `reset` (agentStore.ts lines 381-397); like `startSession` it also calls
`resetOutputCounters`, which is outside the store state. -/
def reset (_s : AgentState) : AgentState :=
  initialState

/-- One invocation of a store action, with the wall-clock reading
(`new Date().toISOString()`) made explicit where the action records it. -/
inductive Op where
  | startSession (sessionId : String)
  | addAgent (data : SubagentSpawnedData) (ts : String)
  | startToolCall (data : ToolCallStartData) (ts : String)
  | completeToolCall (data : ToolCallCompleteData)
  | addAgentMessage (data : AgentMessageData)
  | completeAgent (agentId : String)
  | completeSession (data : SessionCompleteData)
  | setSessionError (error : String)
  | setSelectedNode (nodeId : Option String)
  | reset
deriving DecidableEq, Repr

/-- Apply one store action. -/
def exec (o : Op) (s : AgentState) : AgentState :=
  match o with
  | .startSession sid => startSession s sid
  | .addAgent d ts => addAgent s d ts
  | .startToolCall d ts => startToolCall s d ts
  | .completeToolCall d => completeToolCall s d
  | .addAgentMessage d => addAgentMessage s d
  | .completeAgent aid => completeAgent s aid
  | .completeSession d => completeSession s d
  | .setSessionError e => setSessionError s e
  | .setSelectedNode nid => setSelectedNode s nid
  | .reset => reset s

/-- Run a sequence of store actions from the initial store state. -/
def run (ops : List Op) : AgentState :=
  ops.foldl (fun s o => exec o s) initialState

/-- A store action other than `startSession`, `setSelectedNode` and
`reset`: the domain-event actions that can follow a session start. -/
inductive PostStartOp where
  | addAgent (data : SubagentSpawnedData) (ts : String)
  | startToolCall (data : ToolCallStartData) (ts : String)
  | completeToolCall (data : ToolCallCompleteData)
  | addAgentMessage (data : AgentMessageData)
  | completeAgent (agentId : String)
  | completeSession (data : SessionCompleteData)
  | setSessionError (error : String)
deriving DecidableEq, Repr

/-- Apply one post-start store action. -/
def execPost (o : PostStartOp) (s : AgentState) : AgentState :=
  match o with
  | .addAgent d ts => addAgent s d ts
  | .startToolCall d ts => startToolCall s d ts
  | .completeToolCall d => completeToolCall s d
  | .addAgentMessage d => addAgentMessage s d
  | .completeAgent aid => completeAgent s aid
  | .completeSession d => completeSession s d
  | .setSessionError e => setSessionError s e

/-- Run a sequence of post-start store actions from a given state. -/
def runPost (s : AgentState) (ops : List PostStartOp) : AgentState :=
  ops.foldl (fun st o => execPost o st) s

/-- The id of the node an action appends to the node list, if any: only
`addAgent` and `startToolCall` create nodes. -/
def newNodeId : PostStartOp → Option String
  | .addAgent d _ => some ("agent-" ++ d.agent_id)
  | .startToolCall d _ => some ("tool-" ++ d.tool_use_id)
  | _ => none

/-- `true` on the two terminal statuses `complete` and `error`. -/
def terminalStatus : AgentStatus → Bool
  | .complete => true
  | .error => true
  | _ => false

/-- The five per-node domain-event actions (agent spawn, tool start, tool
completion, agent message, agent completion) — the operations spec section
4.3 says keep working after `completeSession`. -/
inductive AgentEventOp where
  | addAgent (data : SubagentSpawnedData) (ts : String)
  | startToolCall (data : ToolCallStartData) (ts : String)
  | completeToolCall (data : ToolCallCompleteData)
  | addAgentMessage (data : AgentMessageData)
  | completeAgent (agentId : String)
deriving DecidableEq, Repr

/-- Apply one per-node domain-event action. -/
def execEvent (o : AgentEventOp) (s : AgentState) : AgentState :=
  match o with
  | .addAgent d ts => addAgent s d ts
  | .startToolCall d ts => startToolCall s d ts
  | .completeToolCall d => completeToolCall s d
  | .addAgentMessage d => addAgentMessage s d
  | .completeAgent aid => completeAgent s aid

/-- The recognized event kinds (unnamed events type file, `EventType`). -/
inductive EventType where
  | SESSION_STARTED
  | SUBAGENT_SPAWNED
  | TOOL_CALL_START
  | TOOL_CALL_COMPLETE
  | AGENT_MESSAGE
  | AGENT_COMPLETE
  | SESSION_COMPLETE
  | SESSION_ERROR
deriving DecidableEq, Repr

/-- A domain-event payload (unnamed events type file, `EventData`). -/
inductive EventData where
  | sessionStarted (d : SessionStartedData)
  | subagentSpawned (d : SubagentSpawnedData)
  | toolCallStart (d : ToolCallStartData)
  | toolCallComplete (d : ToolCallCompleteData)
  | agentMessage (d : AgentMessageData)
  | agentComplete (d : AgentCompleteData)
  | sessionComplete (d : SessionCompleteData)
  | sessionError (d : SessionErrorData)
deriving DecidableEq, Repr

/-- The inbound envelope (unnamed events type file, `WSMessage`).  The
envelope type is kept as a raw string: the handler's switch ignores
unrecognized values, preserving forward compatibility. -/
structure WSMessage where
  type_ : String
  timestamp : String
  session_id : Option String := none
  event_type : Option EventType := none
  data : Option EventData := none
  client_id : Option String := none
  message : Option String := none
deriving DecidableEq, Repr

/-- One inbound transport frame as seen by `handleMessage`: either the
`JSON.parse` call throws (`malformed`) or it yields a message. -/
inductive Frame where
  | malformed
  | parsed (m : WSMessage)
deriving DecidableEq, Repr

/-- The inner event dispatch of `handleMessage`
(useAgentWebSocket.ts lines 57-89).  The TS source casts `message.data` to
the payload type named by `event_type` without validation; the cases where
the payload variant does not match the event kind are unreachable for the
typed producer and are modelled as no-ops. -/
def dispatchEvent (ts : String) (s : AgentState) (m : WSMessage) :
    EventType → EventData → AgentState
  | .SESSION_STARTED, _ => startSession s (m.session_id.getD "")
  | .SUBAGENT_SPAWNED, .subagentSpawned d => addAgent s d ts
  | .TOOL_CALL_START, .toolCallStart d => startToolCall s d ts
  | .TOOL_CALL_COMPLETE, .toolCallComplete d => completeToolCall s d
  | .AGENT_MESSAGE, .agentMessage d => addAgentMessage s d
  | .AGENT_COMPLETE, .agentComplete d => completeAgent s d.agent_id
  | .SESSION_COMPLETE, .sessionComplete d => completeSession s d
  | .SESSION_ERROR, .sessionError d => setSessionError s d.error
  | _, _ => s

/-- `handleMessage` (useAgentWebSocket.ts lines 39-115), restricted to its
store effect: `setClientId` writes hook-local React state, and logging has
no state effect.  A parse failure is caught and leaves the store untouched;
an `event` frame missing its event kind or payload hits the
`if (!message.event_type || !message.data) break` guard. -/
def handleMessage (ts : String) (s : AgentState) : Frame → AgentState
  | .malformed => s
  | .parsed m =>
      if m.type_ = "connected" then s
      else if m.type_ = "pong" then s
      else if m.type_ = "event" then
        match m.event_type, m.data with
        | some et, some d => dispatchEvent ts s m et d
        | _, _ => s
      else if m.type_ = "session_cancelled" then s
      else if m.type_ = "error" then
        setSessionError s ((truthy? m.message).getD "Unknown error")
      else s

/-- Whether a frame is a well-formed session-started event frame (envelope
type `event`, event kind `SESSION_STARTED`, payload present) — the one
frame whose dispatch calls `startSession`. -/
def isSessionStarted : Frame → Bool
  | .malformed => false
  | .parsed m =>
      m.type_ = "event" &&
        match m.event_type, m.data with
        | some .SESSION_STARTED, some _ => true
        | _, _ => false

/-- An outbound client control message (unnamed events type file,
`ClientMessage`). -/
inductive ClientMessage where
  | startSessionMsg (task_brief : String) (input_files : Option (List String))
  | cancelSessionMsg
  | pingMsg
deriving DecidableEq, Repr

/-- The connection state observable by `sendMessage`
(useAgentWebSocket.ts): whether `ws.current?.readyState === WebSocket.OPEN`,
plus the transcript of frames handed to the transport.  The source keeps no
outbound queue or buffer, so none exists here. -/
structure ConnState where
  wsOpen : Bool
  sentFrames : List ClientMessage
deriving DecidableEq, Repr

/-- `sendMessage` (useAgentWebSocket.ts lines 183-190): transmit and report
`true` when the connection is open, otherwise log and report `false`. -/
def sendMessage (c : ConnState) (m : ClientMessage) : ConnState × Bool :=
  if c.wsOpen then ({ c with sentFrames := c.sentFrames ++ [m] }, true)
  else (c, false)

theorem getKey?_setKey_self {β : Type} (l : List (String × β)) (k : String)
    (v : β) : getKey? (setKey l k v) k = some v := by
  induction l with
  | nil => simp [setKey, getKey?]
  | cons hd tl ih =>
      by_cases h : hd.1 = k
      · simp [setKey, getKey?, h]
      · simp only [setKey, getKey?, h, if_neg, ite_false]
        exact ih

theorem getKey?_setKey_ne {β : Type} (l : List (String × β)) (k k' : String)
    (v : β) (h : k' ≠ k) : getKey? (setKey l k v) k' = getKey? l k' := by
  induction l with
  | nil => simp [setKey, getKey?, Ne.symm h]
  | cons hd tl ih =>
      by_cases hh : hd.1 = k
      · subst hh
        simp [setKey, getKey?, Ne.symm h, fun hc : hd.1 = k' => h hc.symm]
      · simp only [setKey, hh, ite_false, getKey?]
        by_cases hk : hd.1 = k'
        · simp [hk]
        · simp [hk, ih]

theorem mem_setKey {β : Type} (l : List (String × β)) (k : String) (v : β)
    (p : String × β) (hp : p ∈ setKey l k v) : p ∈ l ∨ p = (k, v) := by
  induction l with
  | nil =>
      simp [setKey] at hp
      exact Or.inr hp
  | cons hd tl ih =>
      by_cases h : hd.1 = k
      · simp only [setKey, h, ite_true] at hp
        rcases List.mem_cons.mp hp with h1 | h1
        · exact Or.inr h1
        · exact Or.inl (List.mem_cons_of_mem _ h1)
      · simp only [setKey, h, ite_false] at hp
        rcases List.mem_cons.mp hp with h1 | h1
        · exact Or.inl (h1 ▸ List.mem_cons_self _ _)
        · rcases ih h1 with h2 | h2
          · exact Or.inl (List.mem_cons_of_mem _ h2)
          · exact Or.inr h2

theorem getKey?_mem {β : Type} (l : List (String × β)) (k : String) (v : β)
    (h : getKey? l k = some v) : (k, v) ∈ l := by
  induction l with
  | nil => simp [getKey?] at h
  | cons hd tl ih =>
      by_cases hh : hd.1 = k
      · simp only [getKey?, hh, ite_true, Option.some.injEq] at h
        subst h
        exact hh ▸ List.mem_cons_self _ _
      · simp only [getKey?, hh, ite_false] at h
        exact List.mem_cons_of_mem _ (ih h)

@[simp]
theorem sessionStatus_startSession (s : AgentState) (sid : String) :
    (startSession s sid).sessionStatus = .running := rfl

@[simp]
theorem sessionStatus_addAgent (s : AgentState) (d : SubagentSpawnedData)
    (ts : String) : (addAgent s d ts).sessionStatus = s.sessionStatus := rfl

@[simp]
theorem sessionStatus_startToolCall (s : AgentState) (d : ToolCallStartData)
    (ts : String) : (startToolCall s d ts).sessionStatus = s.sessionStatus :=
  rfl

@[simp]
theorem sessionStatus_completeToolCall (s : AgentState)
    (d : ToolCallCompleteData) :
    (completeToolCall s d).sessionStatus = s.sessionStatus := rfl

@[simp]
theorem sessionStatus_addAgentMessage (s : AgentState) (d : AgentMessageData) :
    (addAgentMessage s d).sessionStatus = s.sessionStatus := by
  unfold addAgentMessage
  cases h : getKey? s.agents d.agent_id <;> simp [h]

@[simp]
theorem sessionStatus_completeAgent (s : AgentState) (aid : String) :
    (completeAgent s aid).sessionStatus = s.sessionStatus := rfl

@[simp]
theorem sessionStatus_completeSession (s : AgentState)
    (d : SessionCompleteData) :
    (completeSession s d).sessionStatus = .complete := rfl

@[simp]
theorem sessionStatus_setSessionError (s : AgentState) (e : String) :
    (setSessionError s e).sessionStatus = .error := rfl

theorem runPost_cons (s : AgentState) (o : PostStartOp)
    (ops : List PostStartOp) :
    runPost s (o :: ops) = runPost (execPost o s) ops := rfl

theorem nodes_length_execPost (s : AgentState) (o : PostStartOp) :
    (execPost o s).nodes.length =
      s.nodes.length + (if (newNodeId o).isSome then 1 else 0) := by
  cases o with
  | addAgent d ts => simp [execPost, addAgent, newNodeId]
  | startToolCall d ts => simp [execPost, startToolCall, newNodeId]
  | completeToolCall d => simp [execPost, completeToolCall, newNodeId]
  | addAgentMessage d =>
      unfold execPost addAgentMessage
      cases h : getKey? s.agents d.agent_id <;> simp [h, newNodeId]
  | completeAgent aid => simp [execPost, completeAgent, newNodeId]
  | completeSession d => simp [execPost, completeSession, newNodeId]
  | setSessionError e => simp [execPost, setSessionError, newNodeId]

theorem edge_deanimate_eq (nid : String) (e : Edge) :
    (if e.target = nid && e.animated then { e with animated := false } else e) =
      (if e.target = nid then { e with animated := false } else e) := by
  by_cases ht : e.target = nid
  · by_cases ha : e.animated
    · simp [ht, ha]
    · simp only [ht, decide_True, Bool.true_and, ha, Bool.false_eq_true,
        ite_false, ite_true]
      cases e
      simp_all
  · simp [ht]

end AgentStore

open AgentStore

/-- C5: calling `startSession` from any state yields the same fresh-graph
state: exactly one root node at the layout origin, empty agent and
tool-call maps, empty edge list, empty dependency index, session status
`running` — the result does not depend on the prior state, so replaying a
session start is idempotent toward the single-root graph and never
additive. -/
theorem c5_startSession_fresh_graph (s : AgentState) (sid : String) :
    startSession s sid = startSession initialState sid ∧
    (startSession s sid).nodes = [orchestratorNode] ∧
    orchestratorNode.position = { x := START_X, y := START_Y } ∧
    (startSession s sid).agents = [] ∧
    (startSession s sid).toolCalls = [] ∧
    (startSession s sid).edges = [] ∧
    (startSession s sid).urlToNodeId = [] ∧
    (startSession s sid).sessionStatus = .running ∧
    (startSession s sid).deliverables = [] ∧
    (startSession s sid).finalSummary = none ∧
    (startSession s sid).selectedNodeId = none := by
  refine ⟨rfl, rfl, ?_, rfl, rfl, rfl, rfl, rfl, rfl, rfl, rfl⟩
  simp [orchestratorNode, calculateNodePosition]

/-- C6: `completeAgent` sets the agent's map entry and its node's status to
`complete`, sets `animated := false` on exactly the edges whose target is
that agent's node (every other edge — in particular every outgoing edge —
keeps all of its fields), and leaves every other part of the state
unchanged: tool calls, session fields, dependency index, column counters,
deliverables and selection. -/
theorem c6_completeAgent_frame (s : AgentState) (aid : String) :
    (∀ k, getKey? (completeAgent s aid).agents k =
        if k = aid then
          (getKey? s.agents aid).map fun a => { a with status := .complete }
        else getKey? s.agents k) ∧
    (completeAgent s aid).nodes = (s.nodes.map fun n =>
        if n.id = "agent-" ++ aid then
          { n with data := { n.data with status := .complete } }
        else n) ∧
    (completeAgent s aid).edges = (s.edges.map fun e =>
        if e.target = "agent-" ++ aid then { e with animated := false }
        else e) ∧
    (completeAgent s aid).toolCalls = s.toolCalls ∧
    (completeAgent s aid).sessionId = s.sessionId ∧
    (completeAgent s aid).sessionStatus = s.sessionStatus ∧
    (completeAgent s aid).sessionError = s.sessionError ∧
    (completeAgent s aid).urlToNodeId = s.urlToNodeId ∧
    (completeAgent s aid).columnCounts = s.columnCounts ∧
    (completeAgent s aid).deliverables = s.deliverables ∧
    (completeAgent s aid).finalSummary = s.finalSummary ∧
    (completeAgent s aid).selectedNodeId = s.selectedNodeId := by
  refine ⟨?_, rfl, ?_, rfl, rfl, rfl, rfl, rfl, rfl, rfl, rfl, rfl⟩
  · intro k
    show getKey?
        (match getKey? s.agents aid with
         | some agent => setKey s.agents aid { agent with status := .complete }
         | none => s.agents) k = _
    by_cases hk : k = aid
    · subst hk
      cases h : getKey? s.agents k with
      | none => simp [h]
      | some a => simp [h, getKey?_setKey_self]
    · cases h : getKey? s.agents aid with
      | none => simp [h, hk]
      | some a => simp [h, hk, getKey?_setKey_ne _ _ _ _ hk]
  · show (s.edges.map fun e =>
        if e.target = "agent-" ++ aid && e.animated then
          { e with animated := false }
        else e) = _
    exact congrArg (fun f => s.edges.map f)
      (funext (edge_deanimate_eq ("agent-" ++ aid)))

/-- C8: after `completeSession` has frozen the session status to
`complete`, every later per-node domain-event operation (agent spawn, tool
start, tool completion, agent message, agent completion) is applied to the
store exactly as it would be in a running session, and none of them
changes the terminal session status: executing the operation commutes with
pinning the session status to `complete`. -/
theorem c8_late_events_still_apply (s : AgentState) (o : AgentEventOp) :
    execEvent o { s with sessionStatus := .complete } =
      { execEvent o s with sessionStatus := .complete } := by
  cases s with
  | mk sid st serr ags tcs nds eds url cc dels fs sel =>
      cases o with
      | addAgent d ts => rfl
      | startToolCall d ts => rfl
      | completeToolCall d => rfl
      | addAgentMessage d =>
          simp only [execEvent, addAgentMessage]
          cases h : getKey? ags d.agent_id <;> simp [h]
      | completeAgent aid => rfl

/-- C9: `sendMessage` on a connection that is not open returns `false` to
its caller, transmits nothing and leaves the connection state unchanged —
there is no outbound queue, so nothing is buffered for later delivery; on
an open connection it hands exactly the given message to the transport and
returns `true`. -/
theorem c9_send_closed_noop (c : ConnState) (m : ClientMessage) :
    (c.wsOpen = false → sendMessage c m = (c, false)) ∧
    (c.wsOpen = true →
      sendMessage c m = ({ c with sentFrames := c.sentFrames ++ [m] }, true)) := by
  constructor <;> intro h <;> simp [sendMessage, h]

/-- Witness for C9 at a concrete closed and a concrete open connection. -/
theorem c9_send_closed_noop_witness :
    sendMessage { wsOpen := false, sentFrames := [] } .pingMsg =
      ({ wsOpen := false, sentFrames := [] }, false) ∧
    sendMessage { wsOpen := true, sentFrames := [] } .pingMsg =
      ({ wsOpen := true, sentFrames := [.pingMsg] }, true) :=
  ⟨(c9_send_closed_noop _ _).1 rfl, (c9_send_closed_noop _ _).2 rfl⟩

/-- Concrete spawn payload for agent `a1`, used in witnesses and
counterexamples. -/
def sampleSpawnA1 : SubagentSpawnedData :=
  { agent_id := "a1", agent_type := "planner", description := "plan the task",
    parent_id := none }

/-- Concrete spawn payload for agent `a2`. -/
def sampleSpawnA2 : SubagentSpawnedData :=
  { agent_id := "a2", agent_type := "model-extractor",
    description := "extract the model", parent_id := none }

/-- Concrete tool-call start payload for tool call `t1` of agent `a1`. -/
def sampleStartT1 : ToolCallStartData :=
  { agent_id := "a1", tool_name := "gen", tool_input_summary := [],
    input_urls := [], tool_use_id := "t1" }

/-- Concrete successful completion payload for tool call `t1`, producing
the result URL consumed by `sampleStartT2`. -/
def sampleCompleteT1 : ToolCallCompleteData :=
  { agent_id := "a1", tool_name := "gen", tool_use_id := "t1",
    success := true, result_url := some "https://x/img.png",
    result := some "ok", error := none }

/-- Concrete tool-call start payload for tool call `t2` of agent `a2`,
listing `t1`'s result URL among its input URLs. -/
def sampleStartT2 : ToolCallStartData :=
  { agent_id := "a2", tool_name := "extract", tool_input_summary := [],
    input_urls := ["https://x/img.png"], tool_use_id := "t2" }

/-- Number of `addAgent` operations in a post-start operation sequence. -/
def countAddAgent : List PostStartOp → Nat
  | [] => 0
  | .addAgent _ _ :: rest => countAddAgent rest + 1
  | _ :: rest => countAddAgent rest

/-- Number of `startToolCall` operations in a post-start operation
sequence. -/
def countStartToolCall : List PostStartOp → Nat
  | [] => 0
  | .startToolCall _ _ :: rest => countStartToolCall rest + 1
  | _ :: rest => countStartToolCall rest

theorem runPost_nodes_length (s : AgentState) (ops : List PostStartOp) :
    (runPost s ops).nodes.length =
      s.nodes.length + countAddAgent ops + countStartToolCall ops := by
  induction ops generalizing s with
  | nil => simp [runPost, countAddAgent, countStartToolCall]
  | cons o rest ih =>
      rw [runPost_cons, ih]
      have h := nodes_length_execPost s o
      cases o <;>
        simp [newNodeId] at h <;>
        simp only [countAddAgent, countStartToolCall] <;>
        omega

/-- C2 (amended): for every operation sequence that begins with
`startSession`, the length of the node list equals 1 (the root node) plus
the number of `addAgent` operations plus the number of `startToolCall`
operations: every tool-call start appends a tool node of its own, and a
repeated agent id appends a second node rather than being deduplicated, so
the count is per call, not per distinct agent id. -/
theorem c2_node_count (sid : String) (ops : List PostStartOp) :
    (runPost (startSession initialState sid) ops).nodes.length =
      1 + countAddAgent ops + countStartToolCall ops := by
  rw [runPost_nodes_length]
  have h1 : (startSession initialState sid).nodes.length = 1 := rfl
  rw [h1]

/-- Counterexample to C2 as stated: after a session start, spawning agent
`a1` twice and starting one tool call yields four nodes, while
1 + (number of distinct agent ids passed to addAgent) = 1 + 1 = 2 — the
node count is neither independent of tool calls nor a function of the
distinct agent ids. -/
theorem c2_node_count_counterexample :
    (runPost (startSession initialState "s1")
        [.addAgent sampleSpawnA1 "ts1", .addAgent sampleSpawnA1 "ts2",
         .startToolCall sampleStartT1 "ts3"]).nodes.length = 4 ∧
    [sampleSpawnA1.agent_id, sampleSpawnA1.agent_id].dedup.length = 1 ∧
    4 ≠ 1 + 1 := by
  refine ⟨rfl, by decide, by decide⟩

theorem agents_invariant_exec (s : AgentState)
    (hs : ∀ q ∈ s.agents, q.2.status = .running ∨ q.2.status = .complete)
    (o : Op) :
    ∀ q ∈ (exec o s).agents, q.2.status = .running ∨ q.2.status = .complete := by
  cases o with
  | startSession sid => intro q hq; simp [exec, startSession] at hq
  | addAgent d ts =>
      intro q hq
      rcases mem_setKey _ _ _ _ hq with h | h
      · exact hs q h
      · subst h; exact Or.inl rfl
  | startToolCall d ts => exact hs
  | completeToolCall d => exact hs
  | addAgentMessage d =>
      intro q hq
      simp only [exec, addAgentMessage] at hq
      cases h : getKey? s.agents d.agent_id with
      | none => rw [h] at hq; exact hs q hq
      | some a =>
          rw [h] at hq
          simp only at hq
          rcases mem_setKey _ _ _ _ hq with h1 | h1
          · exact hs q h1
          · subst h1
            exact hs (d.agent_id, a) (getKey?_mem _ _ _ h)
  | completeAgent aid =>
      intro q hq
      simp only [exec, completeAgent] at hq
      cases h : getKey? s.agents aid with
      | none => rw [h] at hq; simp only at hq; exact hs q hq
      | some a =>
          rw [h] at hq
          simp only at hq
          rcases mem_setKey _ _ _ _ hq with h1 | h1
          · exact hs q h1
          · subst h1; exact Or.inr rfl
  | completeSession d => exact hs
  | setSessionError e => exact hs
  | setSelectedNode nid => exact hs
  | reset => intro q hq; simp [exec, reset, initialState] at hq

/-- C10: although `AgentStatus` admits `pending` and `error`, every agent
record ever present in the agents map of a reachable store state has
status `running` or `complete`: `addAgent` creates agents as `running`,
`completeAgent` is the only status transition and writes `complete`, and
no operation writes `pending` or `error` into an agent — so an agent-level
error state is unreachable. -/
theorem c10_agent_status_range (ops : List Op) (p : String × Agent)
    (hp : p ∈ (run ops).agents) :
    p.2.status = .running ∨ p.2.status = .complete := by
  have main : ∀ (l : List Op) (s : AgentState),
      (∀ q ∈ s.agents, q.2.status = .running ∨ q.2.status = .complete) →
      ∀ q ∈ (l.foldl (fun st o => exec o st) s).agents,
        q.2.status = .running ∨ q.2.status = .complete := by
    intro l
    induction l with
    | nil => intro s hs; exact hs
    | cons o rest ih =>
        intro s hs
        exact ih (exec o s) (agents_invariant_exec s hs o)
  have hinit : ∀ q ∈ initialState.agents,
      q.2.status = .running ∨ q.2.status = .complete := by
    intro q hq
    simp [initialState] at hq
  exact main ops initialState hinit p hp

theorem completeToolCall_urlToNodeId (s : AgentState)
    (d : ToolCallCompleteData) (u : String) (hU : d.result_url = some u)
    (hne : u ≠ "") :
    (completeToolCall s d).urlToNodeId =
      setKey s.urlToNodeId u ("tool-" ++ d.tool_use_id) := by
  have htr : truthy? d.result_url = some u := by simp [truthy?, hU, hne]
  unfold completeToolCall
  simp [htr]

/-- C1 (amended): when tool call A completes with a non-empty result URL
`u`, `completeToolCall` registers `u` in the dependency index under the
completed tool call's own node id `tool-<A.tool_use_id>` (not the owning
agent's node id), and a later `startToolCall` whose input URLs contain `u`
creates a dependency edge from that tool-call node to the new tool call's
node `tool-<B.tool_use_id>` (not between the two agent nodes), regardless
of where the two owning agents sit in the spawn tree. -/
theorem c1_dependency_edge (s : AgentState) (dA : ToolCallCompleteData)
    (dB : ToolCallStartData) (u ts : String) (hU : dA.result_url = some u)
    (hne : u ≠ "") (hIn : u ∈ dB.input_urls) :
    getKey? (completeToolCall s dA).urlToNodeId u =
      some ("tool-" ++ dA.tool_use_id) ∧
    ∃ e ∈ (startToolCall (completeToolCall s dA) dB ts).edges,
      e.source = "tool-" ++ dA.tool_use_id ∧
      e.target = "tool-" ++ dB.tool_use_id ∧ e.label = some "data" := by
  have hreg : getKey? (completeToolCall s dA).urlToNodeId u =
      some ("tool-" ++ dA.tool_use_id) := by
    rw [completeToolCall_urlToNodeId s dA u hU hne]
    exact getKey?_setKey_self _ _ _
  refine ⟨hreg, ?_⟩
  refine ⟨{ id := "edge-dep-" ++ ("tool-" ++ dA.tool_use_id) ++ "-" ++
                    ("tool-" ++ dB.tool_use_id),
            source := "tool-" ++ dA.tool_use_id,
            target := "tool-" ++ dB.tool_use_id,
            animated := false,
            stroke := "#22c55e",
            strokeWidth := 2,
            dashed := true,
            label := some "data" }, ?_, rfl, rfl, rfl⟩
  show _ ∈ (completeToolCall s dA).edges ++ [_] ++ _
  refine List.mem_append_right _ ?_
  refine List.mem_filterMap.mpr ⟨u, hIn, ?_⟩
  rw [hreg]
  rfl

/-- Witness for C1 (amended) at the concrete producer/consumer pair
`sampleCompleteT1` / `sampleStartT2`. -/
theorem c1_dependency_edge_witness :
    getKey? (completeToolCall initialState sampleCompleteT1).urlToNodeId
        "https://x/img.png" = some ("tool-" ++ sampleCompleteT1.tool_use_id) ∧
    ∃ e ∈ (startToolCall (completeToolCall initialState sampleCompleteT1)
        sampleStartT2 "ts9").edges,
      e.source = "tool-" ++ sampleCompleteT1.tool_use_id ∧
      e.target = "tool-" ++ sampleStartT2.tool_use_id ∧
      e.label = some "data" :=
  c1_dependency_edge initialState sampleCompleteT1 sampleStartT2
    "https://x/img.png" "ts9" (by decide) (by decide) (by decide)

/-- The store state after a full producer/consumer run: session start,
spawn of `a1`, tool call `t1` started and completed with a result URL,
spawn of `a2`, and tool call `t2` started with that URL among its inputs.
Used by the counterexample to C1. -/
def c1RunState : AgentState :=
  startToolCall
    (addAgent
      (completeToolCall
        (startToolCall (addAgent (startSession initialState "s0")
          sampleSpawnA1 "ta1") sampleStartT1 "tt1")
        sampleCompleteT1)
      sampleSpawnA2 "ta2")
    sampleStartT2 "tt2"

/-- Counterexample to C1 as stated: in the producer/consumer run no edge
runs from agent node `agent-a1` to agent node `agent-a2`, and the
dependency index maps the result URL to the tool node `tool-t1`, not to
the owning agent's node id `agent-a1`. -/
theorem c1_dependency_edge_counterexample :
    (¬ ∃ e ∈ c1RunState.edges,
        e.source = "agent-a1" ∧ e.target = "agent-a2") ∧
    getKey? c1RunState.urlToNodeId "https://x/img.png" = some "tool-t1" ∧
    "tool-t1" ≠ "agent-a1" := by decide

theorem c4_step (s : AgentState) (o : PostStartOp) (nid : String)
    (hO : newNodeId o ≠ some nid)
    (hTerm : ∀ n ∈ s.nodes, n.id = nid → terminalStatus n.data.status = true) :
    ∀ n ∈ (execPost o s).nodes, n.id = nid →
      terminalStatus n.data.status = true := by
  cases o with
  | addAgent d ts =>
      intro n hn hid
      simp only [execPost, addAgent] at hn
      rcases List.mem_append.mp hn with h | h
      · exact hTerm n h hid
      · simp only [List.mem_singleton] at h
        subst h
        simp only [newNodeId] at hO
        exact absurd (congrArg some hid) hO
  | startToolCall d ts =>
      intro n hn hid
      simp only [execPost, startToolCall] at hn
      rcases List.mem_append.mp hn with h | h
      · exact hTerm n h hid
      · simp only [List.mem_singleton] at h
        subst h
        simp only [newNodeId] at hO
        exact absurd (congrArg some hid) hO
  | completeToolCall d =>
      intro n hn hid
      simp only [execPost, completeToolCall] at hn
      rcases List.mem_map.mp hn with ⟨a, ha, rfl⟩
      by_cases h2 : a.id = "tool-" ++ d.tool_use_id
      · simp only [h2, if_pos]
        cases d.success <;> simp [terminalStatus]
      · simp only [h2, if_neg, ite_false] at hid ⊢
        exact hTerm a ha hid
  | addAgentMessage d =>
      intro n hn hid
      simp only [execPost, addAgentMessage] at hn
      cases h : getKey? s.agents d.agent_id with
      | none => rw [h] at hn; exact hTerm n hn hid
      | some a =>
          rw [h] at hn
          simp only at hn
          exact hTerm n hn hid
  | completeAgent aid =>
      intro n hn hid
      simp only [execPost, completeAgent] at hn
      rcases List.mem_map.mp hn with ⟨a, ha, rfl⟩
      by_cases h2 : a.id = "agent-" ++ aid
      · simp only [h2, if_pos]
        simp [terminalStatus]
      · simp only [h2, if_neg, ite_false] at hid ⊢
        exact hTerm a ha hid
  | completeSession d =>
      intro n hn hid
      exact hTerm n hn hid
  | setSessionError e =>
      intro n hn hid
      exact hTerm n hn hid

/-- C4 (amended): once a node — an agent node or a tool-call node — has a
terminal status (`complete` or `error`), no subsequent sequence of domain
operations returns a node with that id to `pending` or `running`, provided
the sequence contains no duplicate `addAgent` for that agent id and no
duplicate `startToolCall` for that tool-call id (the repository does not
deduplicate replayed spawn/start events: such a replay appends a fresh
`running` node under the same id). -/
theorem c4_terminal_nodes_stay (s : AgentState) (ops : List PostStartOp)
    (nid : String) (hOps : ∀ o ∈ ops, newNodeId o ≠ some nid)
    (hTerm : ∀ n ∈ s.nodes, n.id = nid → terminalStatus n.data.status = true) :
    ∀ n ∈ (runPost s ops).nodes, n.id = nid →
      terminalStatus n.data.status = true := by
  revert hOps hTerm
  induction ops generalizing s with
  | nil =>
      intro hOps hTerm
      exact hTerm
  | cons o rest ih =>
      intro hOps hTerm
      rw [runPost_cons]
      exact ih (execPost o s)
        (fun o2 h2 => hOps o2 (List.mem_cons_of_mem _ h2))
        (c4_step s o nid (hOps o (List.mem_cons_self _ _)) hTerm)

/-- The store state in which agent `a1` has completed (its node status is
terminal), used by the witness and the counterexample of C4. -/
def c4TerminalState : AgentState :=
  runPost (startSession initialState "s1")
    [.addAgent sampleSpawnA1 "t1", .startToolCall sampleStartT1 "t2",
     .completeToolCall sampleCompleteT1, .completeAgent "a1"]

/-- The subsequent operations used by the witness of C4: none of them
re-creates a node with id `agent-a1`. -/
def c4WitnessOps : List PostStartOp :=
  [.addAgent sampleSpawnA2 "t3",
   .addAgentMessage { agent_id := "a1", message := "hi" },
   .completeToolCall sampleCompleteT1]

/-- Witness for C4 (amended) at a concrete run. -/
theorem c4_terminal_nodes_stay_witness :
    (∀ o ∈ c4WitnessOps, newNodeId o ≠ some "agent-a1") ∧
    (∀ n ∈ c4TerminalState.nodes, n.id = "agent-a1" →
      terminalStatus n.data.status = true) ∧
    (∀ n ∈ (runPost c4TerminalState c4WitnessOps).nodes, n.id = "agent-a1" →
      terminalStatus n.data.status = true) :=
  ⟨by decide, by decide,
    c4_terminal_nodes_stay c4TerminalState c4WitnessOps "agent-a1"
      (by decide) (by decide)⟩

/-- Counterexample to C4 as stated: agent `a1`'s node is terminal in
`c4TerminalState`, yet replaying the spawn event for `a1` yields a state
holding a node with id `agent-a1` whose status is `running` again. -/
theorem c4_terminal_nodes_stay_counterexample :
    (∀ n ∈ c4TerminalState.nodes, n.id = "agent-a1" →
      terminalStatus n.data.status = true) ∧
    ∃ n ∈ (execPost (.addAgent sampleSpawnA1 "t9") c4TerminalState).nodes,
      n.id = "agent-a1" ∧ n.data.status = .running := by decide

/-- C3 (amended): from a terminal session status (`complete` or `error`),
no single inbound-frame dispatch other than a well-formed session-started
event frame yields session status `running` — a session-started frame,
however, always restarts the session (the dispatch calls `startSession`
unconditionally), and the explicit `reset` operation takes any state to
`idle`. -/
theorem c3_terminal_not_revived (ts : String) (s : AgentState) (fr : Frame)
    (hTerm : s.sessionStatus = .complete ∨ s.sessionStatus = .error)
    (hNot : isSessionStarted fr = false) :
    (handleMessage ts s fr).sessionStatus ≠ .running ∧
    (reset s).sessionStatus = .idle := by
  have hTermNR : s.sessionStatus ≠ .running := by
    rcases hTerm with h | h <;> rw [h] <;> intro hc <;> cases hc
  refine ⟨?_, rfl⟩
  cases fr with
  | malformed => exact hTermNR
  | parsed m =>
      simp only [handleMessage]
      split_ifs with h1 h2 h3 h4 h5
      · exact hTermNR
      · exact hTermNR
      · rcases het : m.event_type with _ | et <;>
          rcases hd : m.data with _ | d <;>
          simp only [het, hd]
        · exact hTermNR
        · exact hTermNR
        · exact hTermNR
        · cases et with
          | SESSION_STARTED =>
              exfalso
              simp [isSessionStarted, h3, het, hd] at hNot
          | SUBAGENT_SPAWNED =>
              cases d <;> simp only [dispatchEvent, sessionStatus_addAgent] <;>
                exact hTermNR
          | TOOL_CALL_START =>
              cases d <;>
                simp only [dispatchEvent, sessionStatus_startToolCall] <;>
                exact hTermNR
          | TOOL_CALL_COMPLETE =>
              cases d <;>
                simp only [dispatchEvent, sessionStatus_completeToolCall] <;>
                exact hTermNR
          | AGENT_MESSAGE =>
              cases d <;>
                simp only [dispatchEvent, sessionStatus_addAgentMessage] <;>
                exact hTermNR
          | AGENT_COMPLETE =>
              cases d <;>
                simp only [dispatchEvent, sessionStatus_completeAgent] <;>
                exact hTermNR
          | SESSION_COMPLETE =>
              cases d <;>
                simp only [dispatchEvent, sessionStatus_completeSession] <;>
                first
                | exact hTermNR
                | decide
          | SESSION_ERROR =>
              cases d <;>
                simp only [dispatchEvent, sessionStatus_setSessionError] <;>
                first
                | exact hTermNR
                | decide
      · exact hTermNR
      · simp only [sessionStatus_setSessionError]
        intro hc
        cases hc
      · exact hTermNR

/-- The store state of a completed session, used by the witness and the
counterexample of C3. -/
def c3CompleteState : AgentState :=
  completeSession (startSession initialState "s1")
    { final_url := none, duration_ms := 5, summary := {} }

/-- Witness for C3 (amended): dispatching a pong frame in a completed
session does not yield a running status. -/
theorem c3_terminal_not_revived_witness :
    (c3CompleteState.sessionStatus = .complete ∨
      c3CompleteState.sessionStatus = .error) ∧
    isSessionStarted (.parsed { type_ := "pong", timestamp := "x" }) = false ∧
    ((handleMessage "t" c3CompleteState
        (.parsed { type_ := "pong", timestamp := "x" })).sessionStatus ≠
        .running ∧
      (reset c3CompleteState).sessionStatus = .idle) :=
  ⟨by decide, by decide,
    c3_terminal_not_revived "t" c3CompleteState
      (.parsed { type_ := "pong", timestamp := "x" }) (by decide) (by decide)⟩

/-- Counterexample to C3 as stated: one dispatch step — a session-started
event frame — moves a terminal (`complete`) session status straight back
to `running`. -/
theorem c3_terminal_not_revived_counterexample :
    c3CompleteState.sessionStatus = .complete ∧
    (handleMessage "t" c3CompleteState (.parsed
        { type_ := "event", timestamp := "x", session_id := some "s2",
          event_type := some .SESSION_STARTED,
          data := some (.sessionStarted
            { session_id := "s2", request_preview := "p" }) })).sessionStatus =
      .running := by decide

/-- C7 (amended): a frame whose parse fails, and an `event` frame missing
its event kind or its payload, produce no store mutation: the handler
returns the state unchanged (and, being total, raises nothing to its
caller).  Frames missing only payload-level fields are not covered: see
the counterexample, where a session-started frame missing the envelope
session id still resets the store. -/
theorem c7_malformed_frame_dropped (ts : String) (s : AgentState) (fr : Frame)
    (h : fr = .malformed ∨ ∃ m, fr = .parsed m ∧ m.type_ = "event" ∧
      (m.event_type = none ∨ m.data = none)) :
    handleMessage ts s fr = s := by
  rcases h with h | ⟨m, hfr, htype, hmiss⟩
  · subst h; rfl
  · subst hfr
    simp only [handleMessage]
    have h1 : ¬m.type_ = "connected" := by rw [htype]; decide
    have h2 : ¬m.type_ = "pong" := by rw [htype]; decide
    rw [if_neg h1, if_neg h2, if_pos htype]
    rcases hmiss with hm | hm
    · rcases hd : m.data with _ | d <;> simp [hm, hd]
    · rcases het : m.event_type with _ | et <;> simp [het, hm]

/-- Witness for C7 (amended) at a malformed frame and at an event frame
missing both event kind and payload. -/
theorem c7_malformed_frame_dropped_witness :
    handleMessage "t" initialState .malformed = initialState ∧
    handleMessage "t" initialState
        (.parsed { type_ := "event", timestamp := "x" }) = initialState :=
  ⟨c7_malformed_frame_dropped "t" initialState .malformed (Or.inl rfl),
   c7_malformed_frame_dropped "t" initialState
     (.parsed { type_ := "event", timestamp := "x" })
     (Or.inr ⟨{ type_ := "event", timestamp := "x" }, rfl, rfl, Or.inl rfl⟩)⟩

/-- Counterexample to C7 as stated: a session-started event frame missing
the required envelope `session_id` field is not dropped — the handler
still mutates the store, calling `startSession` with the empty string. -/
theorem c7_malformed_frame_dropped_counterexample :
    handleMessage "t" initialState (.parsed
        { type_ := "event", timestamp := "x",
          event_type := some .SESSION_STARTED,
          data := some (.sessionStarted
            { session_id := "s1", request_preview := "p" }) }) ≠
      initialState := by decide

/-- The agent record produced by replaying `sampleSpawnA1`, used by the
witness of C10. -/
def witnessAgentA1 : Agent :=
  { id := "a1", type_ := "planner", description := "plan the task",
    status := .running, parentId := none, messages := [], timestamp := "ts1" }

/-- Witness for C10 at a concrete run: the spawned agent is in the map and
its status is in the allowed range. -/
theorem c10_agent_status_range_witness :
    ("a1", witnessAgentA1) ∈
      (run [.startSession "s1", .addAgent sampleSpawnA1 "ts1"]).agents ∧
    (("a1", witnessAgentA1).2.status = .running ∨
      ("a1", witnessAgentA1).2.status = .complete) :=
  ⟨by decide,
    c10_agent_status_range [.startSession "s1", .addAgent sampleSpawnA1 "ts1"]
      ("a1", witnessAgentA1) (by decide)⟩



